import Mathlib

/-!
Shallow embedding of `src/api/GeneratePdfSendEmail/index.js`, the single
HTTP-triggered Azure Function of the t2d-swms-form repository.

Modelling conventions:
* Request-body values and environment variables are modelled as
  `Option String`: `none` stands for an absent key (JS `undefined`) or
  `null` — the source's `pick` helper treats these two identically, and
  both are falsy in the `||` fallback chains.  Present values are JSON
  strings, on which the source's `String(val)` coercion is the identity,
  so the `pick` call amounts to copying the listed keys.
* JS truthiness of such a value: present and non-empty.
* The pdf-lib library and the Azure Communication Services email client
  are external collaborators; they are modelled as oracle records
  (`PDFDocument` embedding calls, `save`, `send`) supplied in a `World`
  together with the clock values the handler reads (`new Date()` for the
  default date, `Date.now()` for the attachment filename).
* Page coordinates are modelled as rationals: the source manipulates
  them only by literal subtractions and one scaling division.
-/

namespace SwmsForm

/-- JS truthiness of an optional string value: present and non-empty. -/
def otruthy : Option String → Bool
  | none => false
  | some s => s != ""

/-- JS `a || b` on optional string values: `a` if truthy, else `b`. -/
def jsOr (a b : Option String) : Option String :=
  match a with
  | none => b
  | some s => if s = "" then b else some s

/-- JS string interpolation of a value that may be absent with a `|| ''`
guard (as in the source's `drawLine` helper): absent becomes `""`. -/
def jsGetD (o : Option String) : String := o.getD ""

/-- First index of a character in a string, `-1` when absent
(JS `String.prototype.indexOf`). -/
def jsIndexOf (s : String) (c : Char) : Int :=
  match s.toList.indexOf? c with
  | some n => (n : Int)
  | none => -1

/-- JS `String.prototype.slice(start, end)` with clamping and negative
indices counting from the end. -/
def jsSlice (s : String) (start endI : Int) : String :=
  let len : Int := (s.length : Int)
  let st : Int := if start < 0 then max (len + start) 0 else min start len
  let en : Int := if endI < 0 then max (len + endI) 0 else min endI len
  if st < en then String.mk ((s.toList.drop st.toNat).take (en - st).toNat) else ""

/-- JS `String.prototype.slice(start)` (to the end of the string). -/
def jsSliceFrom (s : String) (start : Int) : String :=
  jsSlice s start (s.length : Int)

/-- JS `String.prototype.includes` (substring containment). -/
def strIncludes (s sub : String) : Bool :=
  decide (sub.toList <:+: s.toList)

/-- The request body keys the handler reads: the ten keys listed in the
`pick` call plus the alternate keys consulted by the fallback chains on
lines 69-73 of the source. -/
structure RawBody where
  taskName : Option String := none
  location : Option String := none
  name : Option String := none
  email : Option String := none
  company : Option String := none
  phone : Option String := none
  date : Option String := none
  swmsId : Option String := none
  notes : Option String := none
  signatureDataUrl : Option String := none
  job_description : Option String := none
  task : Option String := none
  job_location : Option String := none
  site_manager : Option String := none
  pc_representative : Option String := none
  submitted_by : Option String := none
  manager_email : Option String := none
  date_provided : Option String := none
  deriving DecidableEq

/-- The empty request body `{}`. -/
def emptyRaw : RawBody := {}

/-- The three environment settings the handler reads. -/
structure Env where
  connStr : Option String
  sender : Option String
  emailRecipient : Option String
  deriving DecidableEq

/-- The `data` object after `pick` and the five fallback assignments of
lines 69-73.  Fields without a fallback chain are the `pick` output
verbatim. -/
structure SubmissionData where
  taskName : Option String
  location : Option String
  name : Option String
  email : Option String
  company : Option String
  phone : Option String
  date : Option String
  swmsId : Option String
  notes : Option String
  signatureDataUrl : Option String
  deriving DecidableEq

/-- Lines 52-73 of the source: `pick` (identity on the string-valued
model) followed by the five `||` fallback assignments.  `today` is the
value of `new Date().toISOString().slice(0, 10)` read on line 73. -/
def normalize (env : Env) (today : String) (body : RawBody) : SubmissionData where
  taskName := jsOr body.taskName (jsOr body.job_description (jsOr body.task (some "SWMS Task")))
  location := jsOr body.location (jsOr body.job_location (jsOr body.location (some "Unknown location")))
  name := jsOr body.name (jsOr body.site_manager (jsOr body.pc_representative
    (jsOr body.submitted_by (some "User"))))
  email := jsOr body.email (jsOr body.email (jsOr body.manager_email env.emailRecipient))
  date := jsOr body.date (jsOr body.date_provided (some today))
  company := body.company
  phone := body.phone
  swmsId := body.swmsId
  notes := body.notes
  signatureDataUrl := body.signatureDataUrl

/-- Drawing operations issued against the pdf-lib page: `drawText`,
`drawImage` and `drawLine` calls (font, colour and thickness are the
fixed constants of the source and are not recorded). -/
inductive DrawOp where
  | text (s : String) (x y : ℚ)
  | image (x y w h : ℚ)
  | rule (x1 y1 x2 y2 : ℚ)
  deriving DecidableEq

/-- Whether a drawing operation is a `drawImage` call. -/
def isImage : DrawOp → Bool
  | DrawOp.image _ _ _ _ => true
  | _ => false

/-- Whether a drawing operation is a `drawLine` call. -/
def isRule : DrawOp → Bool
  | DrawOp.rule _ _ _ _ => true
  | _ => false

/-- An image embedded by pdf-lib (`embedPng`/`embedJpg` result): its
intrinsic width and height. -/
structure Img where
  width : ℚ
  height : ℚ
  deriving DecidableEq

/-- Oracle for the pdf-lib collaborator: the embedding calls may fail
(throw) on malformed data, and `save` serializes the drawn document to
bytes. -/
structure PdfLib where
  embedPng : String → Except String Img
  embedJpg : String → Except String Img
  save : List DrawOp → List Nat

/-- Rendering state: the operations issued so far, the history of values
taken by the mutable vertical cursor `yPos` (initial value first), and
its current value. -/
structure RenderOut where
  ops : List DrawOp
  trace : List ℚ
  yPos : ℚ

/-- A4 page width in points (line 84 of the source). -/
def pageWidth : ℚ := 59528 / 100

/-- A4 page height in points (line 84 of the source). -/
def pageHeight : ℚ := 84189 / 100

/-- Left margin (line 86). -/
def margin : ℚ := 40

/-- Font size (line 89). -/
def fontSize : ℚ := 12

/-- The source's `drawLine(label, value)` helper (lines 92-96): draw
`label + ": " + (value || '')` at the margin and advance the cursor by
`fontSize + 6`. -/
def drawLineStep (label : String) (value : Option String) (st : RenderOut) : RenderOut where
  ops := st.ops ++ [DrawOp.text (label ++ ": " ++ jsGetD value) margin st.yPos]
  trace := st.trace ++ [st.yPos - (fontSize + 6)]
  yPos := st.yPos - (fontSize + 6)

/-- Lines 115-124 of the source: split the data URL at its first comma,
take the base64 payload and the mime type, and embed as PNG when the
mime type contains "png", else as JPEG. -/
def sigEmbedResult (lib : PdfLib) (s : String) : Except String Img :=
  let commaIndex := jsIndexOf s ','
  let base64 := jsSliceFrom s (commaIndex + 1)
  let mime := jsSlice s 5 commaIndex
  if strIncludes mime "png" then lib.embedPng base64 else lib.embedJpg base64

/-- Lines 82-137 of the source: draw the nine field lines, the blank gap
and the "Signature:" label, then either embed the signature image
(skipping silently when embedding throws) or draw a 200-unit signature
rule. -/
def render (lib : PdfLib) (d : SubmissionData) : RenderOut :=
  let st0 : RenderOut := ⟨[], [pageHeight - margin], pageHeight - margin⟩
  let st1 := drawLineStep "Task" d.taskName st0
  let st2 := drawLineStep "Location" d.location st1
  let st3 := drawLineStep "Name" d.name st2
  let st4 := drawLineStep "Email" d.email st3
  let st5 := drawLineStep "Company" d.company st4
  let st6 := drawLineStep "Phone" d.phone st5
  let st7 := drawLineStep "Date" d.date st6
  let st8 := drawLineStep "SWMS ID" d.swmsId st7
  let st9 := drawLineStep "Notes" d.notes st8
  let st10 : RenderOut := ⟨st9.ops, st9.trace ++ [st9.yPos - 10], st9.yPos - 10⟩
  let st11 : RenderOut :=
    ⟨st10.ops ++ [DrawOp.text "Signature:" margin st10.yPos],
     st10.trace ++ [st10.yPos - (fontSize + 6)], st10.yPos - (fontSize + 6)⟩
  if otruthy d.signatureDataUrl then
    match sigEmbedResult lib (jsGetD d.signatureDataUrl) with
    | Except.ok image =>
        let sigWidth : ℚ := 200
        let sigHeight : ℚ := image.height / image.width * sigWidth
        ⟨st11.ops ++ [DrawOp.image margin (st11.yPos - sigHeight) sigWidth sigHeight],
         st11.trace ++ [st11.yPos - (sigHeight + 10)], st11.yPos - (sigHeight + 10)⟩
    | Except.error _ => st11
  else
    ⟨st11.ops ++ [DrawOp.rule margin st11.yPos (margin + 200) st11.yPos],
     st11.trace ++ [st11.yPos - 20], st11.yPos - 20⟩

/-- Base64 alphabet. -/
def b64Char (n : Nat) : Char :=
  "ABCDEFGHIJKLMNOPQRSTUVWXYZabcdefghijklmnopqrstuvwxyz0123456789+/".toList.getD n 'A'

/-- `Buffer.from(bytes).toString('base64')`: standard RFC 4648 base64
with padding, on bytes (naturals below 256). -/
def base64Encode : List Nat → String
  | [] => ""
  | [a] =>
      String.mk [b64Char (a / 4 % 64), b64Char (a % 4 * 16), '=', '=']
  | [a, b] =>
      String.mk [b64Char (a / 4 % 64), b64Char (a % 4 * 16 + b / 16 % 16),
        b64Char (b % 16 * 4), '=']
  | a :: b :: c :: rest =>
      String.mk [b64Char (a / 4 % 64), b64Char (a % 4 * 16 + b / 16 % 16),
        b64Char (b % 16 * 4 + c / 64 % 4), b64Char (c % 64)] ++ base64Encode rest

/-- A recipient entry of the email message. -/
structure Recipient where
  address : String
  displayName : String
  deriving DecidableEq

/-- An attachment entry of the email message. -/
structure Attachment where
  name : String
  contentType : String
  contentBytes : String
  deriving DecidableEq

/-- The message object passed to `emailClient.send` (lines 145-169). -/
structure EmailMessage where
  sender : String
  subject : String
  plainText : String
  html : String
  toRecipients : List Recipient
  attachments : List Attachment
  deriving DecidableEq

/-- The ambient world the handler interacts with: the clock values it
reads and the external pdf-lib and email-client collaborators.
`send` returns the provider's optional message identifier or rejects
with an error message. -/
structure World where
  today : String
  nowMs : Nat
  lib : PdfLib
  send : EmailMessage → Except String (Option String)

/-- Observable side effects of one handler run: whether the PDF document
was constructed, whether `new EmailClient(connStr)` was constructed, and
the message passed to `emailClient.send` when that call was made. -/
structure HandlerEvents where
  rendered : Bool
  clientConstructed : Bool
  sent : Option EmailMessage
  deriving DecidableEq

/-- No side effects (error paths that throw before rendering). -/
def noEvents : HandlerEvents := ⟨false, false, none⟩

/-- A JSON value appearing in the response bodies (strings and null are
the only shapes produced). -/
inductive JVal where
  | jstr (s : String)
  | jnull
  deriving DecidableEq

/-- The `context.res` object: a status code and a JSON object body given
as its ordered key-value pairs. -/
structure HttpResponse where
  status : Nat
  body : List (String × JVal)
  deriving DecidableEq

/-- The body of the `try` block (lines 40-180): config checks,
normalization, email validation, rendering, message construction and the
send call.  Returns the thrown error message or the send result, paired
with the observable events. -/
def handlerAux (env : Env) (w : World) (body : RawBody) :
    Except String (Option String) × HandlerEvents :=
  if otruthy env.connStr = false then
    (Except.error "Missing COMMUNICATION_SERVICES_CONNECTION_STRING app setting", noEvents)
  else if otruthy env.sender = false then
    (Except.error "Missing EMAIL_SENDER app setting", noEvents)
  else
    let data := normalize env w.today body
    if otruthy data.email = false then
      (Except.error "An email address must be provided either in the form or via EMAIL_RECIPIENT",
       noEvents)
    else
      let rr := render w.lib data
      let pdfBytes := w.lib.save rr.ops
      let fileName := "swms-" ++ toString w.nowMs ++ ".pdf"
      let message : EmailMessage :=
        { sender := jsGetD env.sender
          subject := "SWMS Form Submission: " ++ jsGetD data.taskName
          plainText := "A SWMS form has been submitted. See attached PDF."
          html := "<p>A SWMS form has been submitted.</p>"
          toRecipients :=
            [⟨jsGetD data.email, jsGetD data.name⟩,
             ⟨jsGetD (jsOr env.emailRecipient env.sender), "SWMS Admin"⟩]
          attachments := [⟨fileName, "application/pdf", base64Encode pdfBytes⟩] }
      let ev : HandlerEvents := ⟨true, true, some message⟩
      match w.send message with
      | Except.error e => (Except.error e, ev)
      | Except.ok msgId => (Except.ok msgId, ev)

/-- The exported handler (lines 39-191): the try body with the top-level
catch converting any thrown error into a 500 response, and the success
path producing the 200 response of lines 174-180 (`result?.messageId ||
null` renders a falsy identifier as JSON null). -/
def handler (env : Env) (w : World) (body : RawBody) : HttpResponse × HandlerEvents :=
  match handlerAux env w body with
  | (Except.ok msgId, ev) =>
      (⟨200, [("message", JVal.jstr "Email sent successfully"),
              ("id", match msgId with
                     | some m => if m = "" then JVal.jnull else JVal.jstr m
                     | none => JVal.jnull)]⟩, ev)
  | (Except.error e, ev) =>
      (⟨500, [("error", JVal.jstr (if e = "" then "An error occurred" else e))]⟩, ev)

/-! Concrete collaborators used to exercise the handler on closed inputs. -/

/-- A pdf-lib oracle whose embedding calls always throw and whose `save`
returns an empty byte string. -/
def trivLib : PdfLib :=
  ⟨fun _ => Except.error "no", fun _ => Except.error "no", fun _ => []⟩

/-- An email client whose send always succeeds with a message id. -/
def trivSend : EmailMessage → Except String (Option String) :=
  fun _ => Except.ok (some "msg-123")

/-- A concrete world: fixed clock, trivial pdf-lib, succeeding client. -/
def testWorld : World := ⟨"2024-01-01", 1700000000000, trivLib, trivSend⟩

/-- Fully configured environment (default recipient present). -/
def goodEnv : Env :=
  ⟨some "endpoint=https://acs.example/;accesskey=abc", some "sender@example.com",
   some "admin@example.com"⟩

/-- Configured environment without a default recipient. -/
def noRecipEnv : Env :=
  ⟨some "endpoint=https://acs.example/;accesskey=abc", some "sender@example.com", none⟩

/-- Environment with every setting missing. -/
def badEnv : Env := ⟨none, none, none⟩

/-- The vertical position at which the "Signature:" label is drawn: the
cursor after the nine field lines and the 10-unit blank gap. -/
def sigLabelY : ℚ := pageHeight - margin - 9 * (fontSize + 6) - 10

/-! Helper lemmas about the JS value operations. -/

theorem jsOr_none_left (b : Option String) : jsOr none b = b := rfl

theorem jsOr_empty_left (b : Option String) : jsOr (some "") b = b := by
  simp [jsOr]

theorem jsOr_of_otruthy_false {a : Option String} (h : otruthy a = false)
    (b : Option String) : jsOr a b = b := by
  cases a with
  | none => rfl
  | some s =>
      simp only [otruthy, bne_eq_false_iff_eq] at h
      simp [jsOr, h]

theorem jsOr_of_ne {s : String} (h : s ≠ "") (b : Option String) :
    jsOr (some s) b = some s := by
  simp [jsOr, h]

theorem otruthy_iff {o : Option String} :
    otruthy o = true ↔ ∃ s, o = some s ∧ s ≠ "" := by
  cases o with
  | none => simp [otruthy]
  | some s => simp [otruthy]

theorem jsOr_isSome {a b : Option String} (h : b.isSome = true) :
    (jsOr a b).isSome = true := by
  cases a with
  | none => exact h
  | some s =>
      by_cases hs : s = "" <;> simp [jsOr, hs, h]

theorem jsOr_self_absorb (a b : Option String) : jsOr a (jsOr a b) = jsOr a b := by
  cases a with
  | none => rfl
  | some s =>
      by_cases hs : s = "" <;> simp [jsOr, hs]

theorem handlerAux_congr {env : Env} {w : World} {b1 b2 : RawBody}
    (h : normalize env w.today b1 = normalize env w.today b2) :
    handlerAux env w b1 = handlerAux env w b2 := by
  unfold handlerAux
  rw [h]

theorem handler_congr {env : Env} {w : World} {b1 b2 : RawBody}
    (h : normalize env w.today b1 = normalize env w.today b2) :
    handler env w b1 = handler env w b2 := by
  unfold handler
  rw [handlerAux_congr h]

/-! Claim theorems. -/

/-- C2 counterexample: on a concrete successful request the success body's
keys are `message` and `id` — there is no `messageId` field, contrary to
the claim's stated body shape. -/
theorem success_body_has_id_not_messageId :
    (handler goodEnv testWorld emptyRaw).1.status = 200
    ∧ (handler goodEnv testWorld emptyRaw).1.body.map Prod.fst = ["message", "id"]
    ∧ "messageId" ∉ (handler goodEnv testWorld emptyRaw).1.body.map Prod.fst := by
  decide

/-- C2 (amended): every response is either a 200 whose JSON body has
exactly the fields `message` (the fixed success text) and `id` (the
provider's message identifier or null), or a 500 whose JSON body is a
single `error` field; no other status code is produced and no exception
escapes the handler. -/
theorem response_status_and_shape (env : Env) (w : World) (body : RawBody) :
    ((handler env w body).1.status = 200
      ∧ ∃ v, (handler env w body).1.body
          = [("message", JVal.jstr "Email sent successfully"), ("id", v)])
    ∨ ((handler env w body).1.status = 500
      ∧ ∃ m, (handler env w body).1.body = [("error", JVal.jstr m)]) := by
  unfold handler
  rcases h : handlerAux env w body with ⟨res, ev⟩
  cases res with
  | ok msgId => exact Or.inl ⟨rfl, _, rfl⟩
  | error e => exact Or.inr ⟨rfl, _, rfl⟩

/-- C4: field fallback ordering is deterministic — when both `taskName`
and `job_description` are present and non-empty, `taskName` wins — and on
the empty body the defaults are `"SWMS Task"`, `"Unknown location"` and
`"User"`. -/
theorem field_fallback_ordering_and_defaults (env : Env) (today : String)
    (body : RawBody) (t j : String)
    (ht : body.taskName = some t) (ht' : t ≠ "")
    (hj : body.job_description = some j) (hj' : j ≠ "") :
    (normalize env today body).taskName = some t
    ∧ (normalize env today emptyRaw).taskName = some "SWMS Task"
    ∧ (normalize env today emptyRaw).location = some "Unknown location"
    ∧ (normalize env today emptyRaw).name = some "User" := by
  refine ⟨?_, rfl, rfl, rfl⟩
  simp [normalize, ht, jsOr_of_ne ht']

/-- C4 witness: concrete instantiation with both keys supplied. -/
theorem field_fallback_ordering_and_defaults_witness :
    (normalize goodEnv "2024-01-01"
        { emptyRaw with taskName := some "Roof work", job_description := some "Dig" }).taskName
      = some "Roof work"
    ∧ (normalize goodEnv "2024-01-01" emptyRaw).taskName = some "SWMS Task"
    ∧ (normalize goodEnv "2024-01-01" emptyRaw).location = some "Unknown location"
    ∧ (normalize goodEnv "2024-01-01" emptyRaw).name = some "User" :=
  field_fallback_ordering_and_defaults goodEnv "2024-01-01"
    { emptyRaw with taskName := some "Roof work", job_description := some "Dig" }
    "Roof work" "Dig" rfl (by decide) rfl (by decide)

/-- C8 counterexample: normalization reads the clock — the same empty
body under the same configuration yields different records (differing in
the `date` field) when the current date differs between the two runs, so
it is not a pure function of input and configuration alone. -/
theorem normalize_depends_on_clock :
    normalize goodEnv "2024-01-01" emptyRaw ≠ normalize goodEnv "2024-01-02" emptyRaw
    ∧ (normalize goodEnv "2024-01-01" emptyRaw).date
        ≠ (normalize goodEnv "2024-01-02" emptyRaw).date := by
  decide

/-- C8 (amended): normalization is a pure, deterministic function of the
input record, the configuration and the current date: every field except
`date` is independent of the current date, and when the input supplies a
date (a truthy `date` or `date_provided` key) the whole record — the
`date` field included — is determined by input and configuration alone. -/
theorem normalize_deterministic_given_clock (env : Env) (body : RawBody)
    (t1 t2 : String) :
    ((normalize env t1 body).taskName = (normalize env t2 body).taskName
      ∧ (normalize env t1 body).location = (normalize env t2 body).location
      ∧ (normalize env t1 body).name = (normalize env t2 body).name
      ∧ (normalize env t1 body).email = (normalize env t2 body).email
      ∧ (normalize env t1 body).company = (normalize env t2 body).company
      ∧ (normalize env t1 body).phone = (normalize env t2 body).phone
      ∧ (normalize env t1 body).swmsId = (normalize env t2 body).swmsId
      ∧ (normalize env t1 body).notes = (normalize env t2 body).notes
      ∧ (normalize env t1 body).signatureDataUrl
          = (normalize env t2 body).signatureDataUrl)
    ∧ ((otruthy body.date = true ∨ otruthy body.date_provided = true) →
        normalize env t1 body = normalize env t2 body) := by
  refine ⟨⟨rfl, rfl, rfl, rfl, rfl, rfl, rfl, rfl, rfl⟩, ?_⟩
  intro h
  have hdate : jsOr body.date (jsOr body.date_provided (some t1))
      = jsOr body.date (jsOr body.date_provided (some t2)) := by
    rcases h with h | h
    · rcases otruthy_iff.mp h with ⟨s, hs, hs'⟩
      rw [hs, jsOr_of_ne hs', jsOr_of_ne hs']
    · rcases otruthy_iff.mp h with ⟨s, hs, hs'⟩
      cases hd : body.date with
      | none => rw [jsOr_none_left, jsOr_none_left, hs, jsOr_of_ne hs', jsOr_of_ne hs']
      | some d =>
          by_cases hde : d = ""
          · subst hde
            rw [jsOr_empty_left, jsOr_empty_left, hs, jsOr_of_ne hs', jsOr_of_ne hs']
          · rw [jsOr_of_ne hde, jsOr_of_ne hde]
  simp [normalize, hdate]

/-- C8 witness: with a supplied date, two runs under different clock
dates agree. -/
theorem normalize_deterministic_given_clock_witness :
    ((normalize goodEnv "2024-01-01" { emptyRaw with date := some "2023-05-05" }).taskName
        = (normalize goodEnv "2024-01-02" { emptyRaw with date := some "2023-05-05" }).taskName)
    ∧ normalize goodEnv "2024-01-01" { emptyRaw with date := some "2023-05-05" }
        = normalize goodEnv "2024-01-02" { emptyRaw with date := some "2023-05-05" } :=
  ⟨(normalize_deterministic_given_clock goodEnv
      { emptyRaw with date := some "2023-05-05" } "2024-01-01" "2024-01-02").1.1,
   (normalize_deterministic_given_clock goodEnv
      { emptyRaw with date := some "2023-05-05" } "2024-01-01" "2024-01-02").2
      (Or.inl (by decide))⟩

/-- C1: the normalized email is resolved from the request's `email` then
`manager_email` fields with the configured default recipient as final
fallback; whenever it is truthy it is a non-empty string, and when every
email-bearing field is absent and no default recipient is configured the
handler responds 500 with the validation error message, having performed
no rendering and no send. -/
theorem email_invariant_and_missing_email_rejection (env : Env) (w : World)
    (body : RawBody)
    (hc : otruthy env.connStr = true) (hs : otruthy env.sender = true) :
    (normalize env w.today body).email
        = jsOr body.email (jsOr body.manager_email env.emailRecipient)
    ∧ (otruthy (normalize env w.today body).email = true →
        ∃ s, (normalize env w.today body).email = some s ∧ s ≠ "")
    ∧ ((otruthy body.email = false ∧ otruthy body.manager_email = false
          ∧ otruthy env.emailRecipient = false) →
        (handler env w body).1.status = 500
        ∧ (handler env w body).1.body = [("error", JVal.jstr
            "An email address must be provided either in the form or via EMAIL_RECIPIENT")]
        ∧ (handler env w body).2.rendered = false
        ∧ (handler env w body).2.sent = none) := by
  refine ⟨?_, fun h => otruthy_iff.mp h, ?_⟩
  · simp [normalize, jsOr_self_absorb]
  · rintro ⟨he, hm, hr⟩
    have hemail : otruthy (normalize env w.today body).email = false := by
      simp [normalize, jsOr_of_otruthy_false he, jsOr_of_otruthy_false hm, hr]
    have haux : handlerAux env w body = (Except.error
        "An email address must be provided either in the form or via EMAIL_RECIPIENT",
        noEvents) := by
      simp [handlerAux, hc, hs, hemail]
    simp [handler, haux, noEvents]

/-- C1 witness: configured environment without a default recipient and an
empty body. -/
theorem email_invariant_and_missing_email_rejection_witness :
    (handler noRecipEnv testWorld emptyRaw).1.status = 500
    ∧ (handler noRecipEnv testWorld emptyRaw).1.body = [("error", JVal.jstr
        "An email address must be provided either in the form or via EMAIL_RECIPIENT")]
    ∧ (handler noRecipEnv testWorld emptyRaw).2.rendered = false
    ∧ (handler noRecipEnv testWorld emptyRaw).2.sent = none :=
  (email_invariant_and_missing_email_rejection noRecipEnv testWorld emptyRaw
    (by decide) (by decide)).2.2 ⟨by decide, by decide, by decide⟩

/-- C5: when the connection string or the sender setting is missing, the
handler returns 500 with the corresponding config error message and
nothing else happens: no rendering, no email client construction, no
send. -/
theorem missing_config_short_circuit (env : Env) (w : World) (body : RawBody)
    (h : otruthy env.connStr = false ∨ otruthy env.sender = false) :
    (handler env w body).1.status = 500
    ∧ (∃ m, (handler env w body).1.body = [("error", JVal.jstr m)]
        ∧ (m = "Missing COMMUNICATION_SERVICES_CONNECTION_STRING app setting"
            ∨ m = "Missing EMAIL_SENDER app setting"))
    ∧ (handler env w body).2.rendered = false
    ∧ (handler env w body).2.clientConstructed = false
    ∧ (handler env w body).2.sent = none := by
  by_cases hc : otruthy env.connStr = false
  · have haux : handlerAux env w body = (Except.error
        "Missing COMMUNICATION_SERVICES_CONNECTION_STRING app setting", noEvents) := by
      simp [handlerAux, hc]
    refine ⟨?_, ⟨"Missing COMMUNICATION_SERVICES_CONNECTION_STRING app setting",
      ?_, Or.inl rfl⟩, ?_, ?_, ?_⟩ <;> simp [handler, haux, noEvents]
  · have hs : otruthy env.sender = false := by
      rcases h with h | h
      · exact absurd h hc
      · exact h
    have haux : handlerAux env w body = (Except.error
        "Missing EMAIL_SENDER app setting", noEvents) := by
      simp [handlerAux, hc, hs]
    refine ⟨?_, ⟨"Missing EMAIL_SENDER app setting", ?_, Or.inr rfl⟩, ?_, ?_, ?_⟩ <;>
      simp [handler, haux, noEvents]

/-- C5 witness: environment with every setting missing. -/
theorem missing_config_short_circuit_witness :
    (handler badEnv testWorld emptyRaw).1.status = 500
    ∧ (∃ m, (handler badEnv testWorld emptyRaw).1.body = [("error", JVal.jstr m)]
        ∧ (m = "Missing COMMUNICATION_SERVICES_CONNECTION_STRING app setting"
            ∨ m = "Missing EMAIL_SENDER app setting"))
    ∧ (handler badEnv testWorld emptyRaw).2.rendered = false
    ∧ (handler badEnv testWorld emptyRaw).2.clientConstructed = false
    ∧ (handler badEnv testWorld emptyRaw).2.sent = none :=
  missing_config_short_circuit badEnv testWorld emptyRaw (Or.inl (by decide))

/-- C9: a recognized field supplied as the empty string is treated like an
absent field by the fallback chains — for each chained logical field the
normalized record is identical to the one for the field-absent body; the
handler's behaviour on an empty-string email equals its behaviour on a
missing email; and with an empty-string email, no `manager_email` and no
configured default recipient the request is rejected with the validation
error. -/
theorem empty_string_treated_as_absent (env : Env) (w : World) (body : RawBody)
    (hc : otruthy env.connStr = true) (hs : otruthy env.sender = true)
    (hr : otruthy env.emailRecipient = false) :
    normalize env w.today { body with taskName := some "" }
        = normalize env w.today { body with taskName := none }
    ∧ normalize env w.today { body with location := some "" }
        = normalize env w.today { body with location := none }
    ∧ normalize env w.today { body with name := some "" }
        = normalize env w.today { body with name := none }
    ∧ normalize env w.today { body with email := some "" }
        = normalize env w.today { body with email := none }
    ∧ normalize env w.today { body with date := some "" }
        = normalize env w.today { body with date := none }
    ∧ handler env w { body with email := some "" }
        = handler env w { body with email := none }
    ∧ ((handler env w { body with email := some "", manager_email := none }).1.status = 500
       ∧ (handler env w { body with email := some "", manager_email := none }).1.body
           = [("error", JVal.jstr
              "An email address must be provided either in the form or via EMAIL_RECIPIENT")]) := by
  have hmail : normalize env w.today { body with email := some "" }
      = normalize env w.today { body with email := none } := by
    simp [normalize, jsOr_empty_left, jsOr_none_left]
  refine ⟨?_, ?_, ?_, hmail, ?_, handler_congr hmail, ?_⟩
  · simp [normalize, jsOr_empty_left, jsOr_none_left]
  · simp [normalize, jsOr_empty_left, jsOr_none_left]
  · simp [normalize, jsOr_empty_left, jsOr_none_left]
  · simp [normalize, jsOr_empty_left, jsOr_none_left]
  · have hemail : otruthy (normalize env w.today
        { body with email := some "", manager_email := none }).email = false := by
      simp [normalize, jsOr_empty_left, jsOr_none_left, hr]
    have haux : handlerAux env w { body with email := some "", manager_email := none }
        = (Except.error
            "An email address must be provided either in the form or via EMAIL_RECIPIENT",
           noEvents) := by
      simp [handlerAux, hc, hs, hemail]
    simp [handler, haux]

/-- C9 witness: empty-string email, no manager email, no default
recipient. -/
theorem empty_string_treated_as_absent_witness :
    handler noRecipEnv testWorld { emptyRaw with email := some "" }
        = handler noRecipEnv testWorld { emptyRaw with email := none }
    ∧ (handler noRecipEnv testWorld
        { emptyRaw with email := some "", manager_email := none }).1.status = 500 :=
  ⟨(empty_string_treated_as_absent noRecipEnv testWorld emptyRaw
      (by decide) (by decide) (by decide)).2.2.2.2.2.1,
   (empty_string_treated_as_absent noRecipEnv testWorld emptyRaw
      (by decide) (by decide) (by decide)).2.2.2.2.2.2.1⟩

theorem handler_snd (env : Env) (w : World) (body : RawBody) :
    (handler env w body).2 = (handlerAux env w body).2 := by
  unfold handler
  rcases handlerAux env w body with ⟨res, ev⟩
  cases res <;> rfl

theorem jsOr_truthy_of_right {b : Option String} (a : Option String)
    (h : ∃ s, b = some s ∧ s ≠ "") : ∃ s, jsOr a b = some s ∧ s ≠ "" := by
  cases a with
  | none => exact h
  | some s =>
      by_cases hs : s = ""
      · simpa [jsOr, hs] using h
      · exact ⟨s, by simp [jsOr, hs], hs⟩

theorem normalize_taskName_truthy (env : Env) (today : String) (body : RawBody) :
    ∃ t, (normalize env today body).taskName = some t ∧ t ≠ "" := by
  refine jsOr_truthy_of_right _ (jsOr_truthy_of_right _ (jsOr_truthy_of_right _ ?_))
  exact ⟨"SWMS Task", rfl, by decide⟩

/-- C3: when the signature data is malformed — the pdf-lib embedding call
throws on it — the failure never escapes the signature step: the document
is still produced with no embedded image, and with valid configuration, a
resolvable email and a successful send the request still returns 200. -/
theorem malformed_signature_swallowed (env : Env) (w : World) (body : RawBody)
    (hc : otruthy env.connStr = true) (hs : otruthy env.sender = true)
    (he : otruthy (normalize env w.today body).email = true)
    (hsig : otruthy (normalize env w.today body).signatureDataUrl = true)
    (e : String)
    (herr : sigEmbedResult w.lib (jsGetD (normalize env w.today body).signatureDataUrl)
        = Except.error e)
    (hsend : ∀ m, (w.send m).isOk = true) :
    (handler env w body).1.status = 200
    ∧ (render w.lib (normalize env w.today body)).ops.all (fun op => !isImage op) = true
    ∧ (render w.lib (normalize env w.today body)).ops ≠ [] := by
  refine ⟨?_, ?_, ?_⟩
  · unfold handler
    rcases hx : handlerAux env w body with ⟨res, ev⟩
    cases res with
    | ok msgId => rfl
    | error err =>
        exfalso
        revert hx
        simp only [handlerAux, hc, hs, he]
        simp only [Bool.true_eq_false, if_false]
        rcases hsr : w.send _ with e2 | r
        · have hok := congrArg Except.isOk hsr
          rw [hsend] at hok
          simp [Except.isOk, Except.toBool] at hok
        · simp
  · simp [render, drawLineStep, hsig, herr, isImage]
  · simp [render, drawLineStep, hsig, herr]

/-- C3 witness: a data URL whose base64 payload the library rejects. -/
theorem malformed_signature_swallowed_witness :
    (handler goodEnv testWorld
        { emptyRaw with signatureDataUrl := some "data:image/png;base64,@@" }).1.status = 200
    ∧ (render testWorld.lib (normalize goodEnv testWorld.today
        { emptyRaw with signatureDataUrl := some "data:image/png;base64,@@" })).ops.all
        (fun op => !isImage op) = true
    ∧ (render testWorld.lib (normalize goodEnv testWorld.today
        { emptyRaw with signatureDataUrl := some "data:image/png;base64,@@" })).ops ≠ [] :=
  malformed_signature_swallowed goodEnv testWorld
    { emptyRaw with signatureDataUrl := some "data:image/png;base64,@@" }
    (by decide) (by decide) (by decide) (by decide) "no" rfl
    (fun _ => rfl)

/-- C6: for every request that passes the config and email checks, the
message handed to the delivery client has subject `"SWMS Form
Submission: "` followed by the normalized task name, exactly two
recipients — the resolved submitter email with the submitter name as
display name, and an admin recipient addressed to the configured default
recipient or, when none is configured, the sender — and one attachment
named `swms-<unix-millis>.pdf` of content type `application/pdf` whose
payload is the base64 encoding of the rendered PDF bytes. -/
theorem email_message_shape (env : Env) (w : World) (body : RawBody)
    (hc : otruthy env.connStr = true) (hs : otruthy env.sender = true)
    (he : otruthy (normalize env w.today body).email = true) :
    ∃ msg, (handler env w body).2.sent = some msg
      ∧ (∃ t, (normalize env w.today body).taskName = some t ∧ t ≠ ""
          ∧ msg.subject = "SWMS Form Submission: " ++ t)
      ∧ msg.toRecipients =
          [⟨jsGetD (normalize env w.today body).email,
            jsGetD (normalize env w.today body).name⟩,
           ⟨jsGetD (jsOr env.emailRecipient env.sender), "SWMS Admin"⟩]
      ∧ msg.toRecipients.length = 2
      ∧ msg.attachments =
          [⟨"swms-" ++ toString w.nowMs ++ ".pdf", "application/pdf",
            base64Encode (w.lib.save (render w.lib (normalize env w.today body)).ops)⟩] := by
  rw [handler_snd]
  simp only [handlerAux, hc, hs, he]
  simp only [Bool.true_eq_false, if_false]
  rcases hsr : w.send _ with e2 | r
  all_goals {
    refine ⟨_, rfl, ?_, rfl, rfl, rfl⟩
    obtain ⟨t, ht, ht'⟩ := normalize_taskName_truthy env w.today body
    exact ⟨t, ht, ht', by simp [jsGetD, ht]⟩ }

/-- C6 witness: concrete configured request. -/
theorem email_message_shape_witness :
    ∃ msg, (handler goodEnv testWorld
        { emptyRaw with email := some "jane@x.com", name := some "Jane" }).2.sent = some msg
      ∧ (∃ t, (normalize goodEnv testWorld.today
            { emptyRaw with email := some "jane@x.com", name := some "Jane" }).taskName
            = some t ∧ t ≠ "" ∧ msg.subject = "SWMS Form Submission: " ++ t)
      ∧ msg.toRecipients =
          [⟨jsGetD (normalize goodEnv testWorld.today
              { emptyRaw with email := some "jane@x.com", name := some "Jane" }).email,
            jsGetD (normalize goodEnv testWorld.today
              { emptyRaw with email := some "jane@x.com", name := some "Jane" }).name⟩,
           ⟨jsGetD (jsOr goodEnv.emailRecipient goodEnv.sender), "SWMS Admin"⟩]
      ∧ msg.toRecipients.length = 2
      ∧ msg.attachments =
          [⟨"swms-" ++ toString testWorld.nowMs ++ ".pdf", "application/pdf",
            base64Encode (testWorld.lib.save (render testWorld.lib
              (normalize goodEnv testWorld.today
                { emptyRaw with email := some "jane@x.com", name := some "Jane" })).ops)⟩] :=
  email_message_shape goodEnv testWorld
    { emptyRaw with email := some "jane@x.com", name := some "Jane" }
    (by decide) (by decide) (by decide)

/-- C7: the vertical cursor starts at `pageHeight - margin`, decreases by
exactly `fontSize + 6` for each of the nine field lines drawn, and across
the whole drawing sequence — fields, signature label, signature image or
rule — the sequence of cursor values is strictly decreasing (given that
an embedded image has nonnegative intrinsic dimensions, as pdf-lib
guarantees). -/
theorem cursor_monotone_decreasing (lib : PdfLib) (d : SubmissionData)
    (hdim : ∀ img, sigEmbedResult lib (jsGetD d.signatureDataUrl) = Except.ok img →
        0 ≤ img.width ∧ 0 ≤ img.height) :
    (render lib d).trace.take 10
        = (List.range 10).map (fun i => pageHeight - margin - (fontSize + 6) * i)
    ∧ List.Chain' (fun a b => b < a) (render lib d).trace := by
  cases hsig : otruthy d.signatureDataUrl with
  | false =>
      constructor
      · simp [render, drawLineStep, hsig]
        norm_num [List.range_succ, pageHeight, margin, fontSize]
      · simp [render, drawLineStep, hsig, List.chain'_cons]
        norm_num [pageHeight, margin, fontSize]
  | true =>
      rcases hres : sigEmbedResult lib (jsGetD d.signatureDataUrl) with e | img
      · constructor
        · simp [render, drawLineStep, hsig, hres]
          norm_num [List.range_succ, pageHeight, margin, fontSize]
        · simp [render, drawLineStep, hsig, hres, List.chain'_cons]
          norm_num [pageHeight, margin, fontSize]
      · obtain ⟨hw, hh⟩ := hdim img hres
        have hsigH : 0 ≤ img.height / img.width * 200 := by positivity
        constructor
        · simp [render, drawLineStep, hsig, hres]
          norm_num [List.range_succ, pageHeight, margin, fontSize]
        · simp [render, drawLineStep, hsig, hres, List.chain'_cons]
          norm_num [pageHeight, margin, fontSize]
          linarith

/-- C7 witness: the trivial library (no embedded image). -/
theorem cursor_monotone_decreasing_witness :
    (render trivLib (normalize goodEnv "2024-01-01" emptyRaw)).trace.take 10
        = (List.range 10).map (fun i => pageHeight - margin - (fontSize + 6) * i)
    ∧ List.Chain' (fun a b => b < a)
        (render trivLib (normalize goodEnv "2024-01-01" emptyRaw)).trace :=
  cursor_monotone_decreasing trivLib (normalize goodEnv "2024-01-01" emptyRaw)
    (fun img h => absurd h (by simp [sigEmbedResult, trivLib, jsGetD, normalize, emptyRaw]))

/-- C10: when a signature data URL is present but its embedding fails, the
produced document contains the "Signature:" label, no embedded image and
no signature rule, and the cursor ends exactly one line below the label
(it is not advanced by the failed embedding); moreover, for every input
the signature rule is drawn exactly when the signature field is absent
(or empty, which the fallback chains treat as absent). -/
theorem signature_failure_layout (lib : PdfLib) (d : SubmissionData)
    (hsig : otruthy d.signatureDataUrl = true) (e : String)
    (herr : sigEmbedResult lib (jsGetD d.signatureDataUrl) = Except.error e) :
    DrawOp.text "Signature:" margin sigLabelY ∈ (render lib d).ops
    ∧ (render lib d).ops.all (fun op => !isImage op && !isRule op) = true
    ∧ (render lib d).yPos = sigLabelY - (fontSize + 6)
    ∧ (∀ lib2 d2, ((render lib2 d2).ops.any isRule) = !otruthy d2.signatureDataUrl) := by
  refine ⟨?_, ?_, ?_, ?_⟩
  · simp [render, drawLineStep, hsig, herr, List.mem_append]
    norm_num [sigLabelY, pageHeight, margin, fontSize]
  · simp [render, drawLineStep, hsig, herr, isImage, isRule]
  · simp only [render, drawLineStep, hsig, if_true, herr]
    norm_num [sigLabelY, pageHeight, margin, fontSize]
  · intro lib2 d2
    cases hsig2 : otruthy d2.signatureDataUrl with
    | false => simp [render, drawLineStep, hsig2, isRule]
    | true =>
        rcases hres2 : sigEmbedResult lib2 (jsGetD d2.signatureDataUrl) with e2 | img2
        · simp [render, drawLineStep, hsig2, hres2, isRule]
        · simp [render, drawLineStep, hsig2, hres2, isRule]

/-- C10 witness: a data URL whose payload the library rejects. -/
theorem signature_failure_layout_witness :
    DrawOp.text "Signature:" margin sigLabelY
        ∈ (render trivLib ⟨some "T", some "L", some "N", some "e@x", none, none,
            some "2024-01-01", none, none, some "data:image/png;base64,@@"⟩).ops
    ∧ (render trivLib ⟨some "T", some "L", some "N", some "e@x", none, none,
            some "2024-01-01", none, none, some "data:image/png;base64,@@"⟩).ops.all
        (fun op => !isImage op && !isRule op) = true :=
  ⟨(signature_failure_layout trivLib
      ⟨some "T", some "L", some "N", some "e@x", none, none,
        some "2024-01-01", none, none, some "data:image/png;base64,@@"⟩
      (by decide) "no" rfl).1,
   (signature_failure_layout trivLib
      ⟨some "T", some "L", some "N", some "e@x", none, none,
        some "2024-01-01", none, none, some "data:image/png;base64,@@"⟩
      (by decide) "no" rfl).2.1⟩

end SwmsForm
